import Mathlib

/-!
Verification of the Snapdeal chatbot hybrid-retrieval core (`c.py`).

The development shallowly embeds the retrieval and intent-classification
layer of the chatbot: `AIAssistant.detect_intent` / `enhance_query` /
`generate_conversational_response`, and the `SnapdealRAGChatbot` methods
`retrieve_relevant_info`, `_keyword_search`, `generate_response` and `chat`.
Scores are rationals, knowledge-base records are a structure of the string
fields the retrieval code reads, and the external Pinecone index is an
oracle function stored in the chatbot state; `retrieve_relevant_info`
additionally returns the list of (vector, top_k) queries it issued to the
oracle, so that "no vector query happened" is expressible.
-/

/-- Python whitespace class used by str.split / str.strip and the regex
class \s (space, tab, newline, carriage return, vertical tab, form feed). -/
def py_white (c : Char) : Bool :=
  c = ' ' || c = '\t' || c = '\n' || c = '\r' || c = '\x0b' || c = '\x0c'

/-- Python str.strip(): drop leading and trailing whitespace. -/
def pyStrip (s : String) : String :=
  String.mk (((s.toList.dropWhile py_white).reverse.dropWhile py_white).reverse)

/-- Python str.split() with no separator: split on whitespace runs, no empty pieces. -/
def pySplit (s : String) : List String :=
  (s.split (fun c => py_white c)).filter (fun w => w ≠ "")

/-- Substring occurrence test on character lists. -/
def list_infix (needle : List Char) : List Char → Bool
  | [] => needle.isEmpty
  | c :: rest => needle.isPrefixOf (c :: rest) || list_infix needle rest

/-- Python substring containment test: needle in hay. -/
def substr (needle hay : String) : Bool :=
  list_infix needle.toList hay.toList

/-- A knowledge-base record (the fields of the Python dict that the
retrieval code reads; doc.get defaults are the empty string, and the
optional product_name models the membership test on the dict key). -/
structure Doc where
  id : String
  text : String
  category : String := ""
  product_name : Option String := none
  price : String := ""
  product_url : String := ""
deriving DecidableEq, Repr

/-- A retrieval hit: id, relevance score, and the record metadata. -/
structure Match where
  id : String
  score : ℚ
  metadata : Doc
deriving DecidableEq, Repr

/-- Python truthiness of the Optional[int] max_price argument:
None and 0 are falsy, every other number is truthy. -/
def truthy : Option Nat → Bool
  | none => false
  | some n => n != 0

/-- The rupee sign as it is spelled throughout the source bytes: the
three-character mojibake sequence â ‚ ¹. -/
def mojibake_rupee : List Char := ['â', '‚', '¹']

/-- Decimal value of a digit string. -/
def nat_of_digits (l : List Char) : Nat :=
  l.foldl (fun n c => 10 * n + (c.toNat - 48)) 0

/-- Continuation of the price regex after its mandatory â‚ prefix: an
optional ¹ (the quantifier of the source pattern binds to ¹ alone), then
\s*, then the captured [0-9,]+ group; none when no digit or comma follows
(committing to ¹ and to the maximal whitespace run is exact, since neither
choice can be rescued by backtracking). -/
def price_group_at (l : List Char) : Option (List Char) :=
  let l1 := if l.head? = some '¹' then l.drop 1 else l
  let l2 := l1.dropWhile py_white
  let run := l2.takeWhile (fun d => d.isDigit || d = ',')
  if run.isEmpty then none else some run

/-- re.search of the source price pattern â‚¹?\s*([0-9,]+), whose first two
characters are mandatory literals: the captured group at the leftmost
occurrence of â‚ whose continuation yields a numeral run. -/
def price_regex_search : List Char → Option (List Char)
  | [] => none
  | 'â' :: '‚' :: rest =>
    (match price_group_at rest with
     | some run => some run
     | none => price_regex_search ('‚' :: rest))
  | _ :: rest => price_regex_search rest

/-- Price parsing shared by both price filters: search the mandatory-prefix
pattern, delete the commas of the captured group, and read the remaining
digits; `none` models both a failed regex search (so every price string
without the â‚ mojibake prefix, such as a plain or real-rupee numeral) and
the ValueError raised by int applied to a comma-only group. -/
def parse_price (price_str : String) : Option Nat :=
  match price_regex_search price_str.toList with
  | none => none
  | some run =>
    let digits := run.filter Char.isDigit
    if digits.isEmpty then none else some (nat_of_digits digits)

/-- Lenient price test of `_keyword_search`: a record is skipped only when a
price was parsed and exceeds max_price; parse failure keeps the record. -/
def keyword_price_pass (price_str : String) (mp : Nat) : Bool :=
  match parse_price price_str with
  | some price => !(decide (mp < price))
  | none => true

/-- Strict price test of the vector-match filter in `retrieve_relevant_info`:
a match survives only when a price was parsed and is within max_price. -/
def vector_price_pass (price_str : String) (mp : Nat) : Bool :=
  match parse_price price_str with
  | some price => decide (price ≤ mp)
  | none => false

/-- The strict price filter applied to the vector matches. -/
def filter_by_price_strict (ms : List Match) (mp : Nat) : List Match :=
  ms.filter (fun m => vector_price_pass m.metadata.price mp)

/-- Boosted lexical overlap of `_keyword_search`: distinct query words found
in the record text, +3 once if some query word and the category contain one
another, +4 for each distinct query word of length > 2 occurring inside the
product name. -/
def keyword_overlap (query_words : List String) (doc : Doc) : Nat :=
  let text_words := pySplit doc.text.toLower
  let overlap := (query_words.filter (fun w => text_words.contains w)).length
  let category := doc.category.toLower
  let overlap :=
    if query_words.any (fun w => substr w category || substr category w) then overlap + 3
    else overlap
  match doc.product_name with
  | some pn =>
    let pn_lower := pn.toLower
    overlap + 4 * (query_words.filter (fun w => decide (2 < w.length) && substr w pn_lower)).length
  | none => overlap

/-- Descending-score order on matches. -/
def score_ge (a b : Match) : Prop := b.score ≤ a.score

instance : DecidableRel score_ge := fun a b => inferInstanceAs (Decidable (b.score ≤ a.score))

instance : IsTotal Match score_ge := ⟨fun a b => le_total b.score a.score⟩

instance : IsTrans Match score_ge := ⟨fun _ _ _ h1 h2 => le_trans h2 h1⟩

/-- Stable descending sort modelling Python list.sort(key=score, reverse=True)
(CPython sort is stable; a stable insertion sort has the same contract). -/
def sort_desc_stable (l : List Match) : List Match :=
  List.insertionSort score_ge l

/-- Embedding of `SnapdealRAGChatbot._keyword_search`: optional lenient price
filter, boosted overlap scoring, records with zero total overlap dropped,
stable descending sort, first top_k returned. -/
def _keyword_search (knowledge_base : List Doc) (query : String) (top_k : Nat)
    (max_price : Option Nat) : List Match :=
  let query_lower := query.toLower
  let query_words := (pySplit query_lower).dedup
  let scores := knowledge_base.filterMap (fun doc =>
    if truthy max_price && !(keyword_price_pass doc.price (max_price.getD 0)) then none
    else
      let overlap := keyword_overlap query_words doc
      if 0 < overlap then
        some { id := doc.id, score := (overlap : ℚ) / (max query_words.length 1 : ℚ), metadata := doc }
      else none)
  (sort_desc_stable scores).take top_k

/-- Zero-embedding test of `retrieve_relevant_info`:
np.sum(np.abs(query_vec)) < 1e-10. -/
def isZeroVec (v : List ℚ) : Bool :=
  decide ((v.map (fun x => |x|)).sum < 1 / 10000000000)

/-- Chatbot state: the knowledge base, the fitted vectorizer (as its
transform function), and the external Pinecone index as an oracle mapping a
query vector and top_k to matches or a query failure. -/
structure Chatbot where
  knowledge_base : List Doc
  embed : String → List ℚ
  index : List ℚ → Nat → Except Unit (List Match)

/-- Requested number of vector matches: top_k * 3 if max_price else top_k. -/
def effective_top_k (max_price : Option Nat) (top_k : Nat) : Nat :=
  if truthy max_price then top_k * 3 else top_k

/-- Tail of `retrieve_relevant_info`: prefer the keyword results when the top
vector score is below 0.3 and the keyword results are non-empty with positive
top score, otherwise the first top_k vector matches (keyword results if none). -/
def low_confidence_select (formatted_matches keyword_results : List Match) (top_k : Nat) :
    List Match :=
  let prefer_keyword :=
    match formatted_matches.head? with
    | some m =>
      if m.score < 3 / 10 then
        match keyword_results.head? with
        | some k0 => decide (0 < k0.score)
        | none => false
      else false
    | none => false
  if prefer_keyword then keyword_results
  else if formatted_matches.isEmpty then keyword_results
  else formatted_matches.take top_k

/-- Embedding of `SnapdealRAGChatbot.retrieve_relevant_info`. The second
component is the log of (vector, top_k) queries issued to the index oracle. -/
def retrieve_relevant_info (cb : Chatbot) (query : String) (top_k : Nat)
    (max_price : Option Nat) : List Match × List (List ℚ × Nat) :=
  let query_vec := cb.embed query
  let keyword_results := _keyword_search cb.knowledge_base query top_k max_price
  if isZeroVec query_vec then (keyword_results, [])
  else
    let k := effective_top_k max_price top_k
    match cb.index query_vec k with
    | Except.error _ => (keyword_results, [(query_vec, k)])
    | Except.ok vec_matches =>
      if vec_matches.isEmpty then (keyword_results, [(query_vec, k)])
      else if truthy max_price then
        let filtered_matches := filter_by_price_strict vec_matches (max_price.getD 0)
        if filtered_matches.isEmpty then
          (low_confidence_select vec_matches keyword_results top_k, [(query_vec, k)])
        else (filtered_matches.take top_k, [(query_vec, k)])
      else (low_confidence_select vec_matches keyword_results top_k, [(query_vec, k)])

/-- The intents of AIAssistant (the comparison and recommendation pattern
lists exist in intent_patterns but are never consulted by detect_intent). -/
inductive Intent where
  | search_product
  | price_query
  | policy_query
  | comparison
  | recommendation
  | greeting
  | thanks
deriving DecidableEq, Repr

/-- Entities extracted by detect_intent. -/
structure Entities where
  product : Option String := none
  topic : Option String := none
  max_price : Option Nat := none
deriving DecidableEq, Repr

/-- Result of AIAssistant.detect_intent. -/
structure IntentResult where
  intent : Intent
  query : String
  entities : Entities
deriving DecidableEq, Repr

/-- Literal alternatives of the greeting pattern hi|hello|hey|greetings,
matched by an unanchored re.search (substring containment). -/
def greeting_literals : List String := ["hi", "hello", "hey", "greetings"]

/-- First greeting pattern: the query contains one of the four literals. -/
def greeting_pat1 (ql : String) : Bool :=
  greeting_literals.any (fun w => substr w ql)

/-- Both greeting patterns of intent_patterns. -/
def greeting_hit (ql : String) : Bool :=
  greeting_pat1 ql ||
    (["good morning", "good afternoon", "good evening"].any (fun w => substr w ql))

/-- The thanks patterns: thank(?:s| you), appreciate it, helpful. -/
def thanks_hit (ql : String) : Bool :=
  (["thanks", "thank you"].any (fun w => substr w ql)) ||
    substr "appreciate it" ql || substr "helpful" ql

/-- At one position, try the literal prefix alternatives in order and
capture the greedy (.+) group after the first that fits (the capture must
be non-empty and stops at a newline, as the regex dot does). -/
def capture_rest (alts : List String) (l : List Char) : Option String :=
  alts.findSome? (fun a =>
    if a.toList.isPrefixOf l then
      let cap := (l.drop a.length).takeWhile (fun c => c ≠ '\n')
      if cap.isEmpty then none else some (String.mk cap)
    else none)

/-- re.search of a pattern of shape ALT(.+): leftmost position wins, then
alternative order. -/
def search_capture (alts : List String) : List Char → Option String
  | [] => none
  | c :: rest =>
    match capture_rest alts (c :: rest) with
    | some g => some g
    | none => search_capture alts rest

/-- Expanded prefix alternatives of the how much price pattern. -/
def how_much_alts : List String :=
  ["how much is ", "how much are ", "how much does ", "how much do ", "how much cost "]

/-- Expanded prefix alternatives of the what is the price of pattern. -/
def what_price_alts : List String :=
  ["what\u0027s the price of ", "what is the price of "]

/-- The price_query pattern list, tried pattern by pattern; the captured
product phrase is stripped. -/
def price_query_match (ql : String) : Option String :=
  ((((search_capture how_much_alts ql.toList).orElse (fun _ =>
      search_capture ["price of "] ql.toList)).orElse (fun _ =>
      search_capture ["cost of "] ql.toList)).orElse (fun _ =>
      search_capture what_price_alts ql.toList)).map pyStrip

/-- Prefix alternatives of the first policy pattern, in the backtracking
order of its two optional groups. -/
def policy1_prefixes : List String :=
  ["what\u0027s the ", "what\u0027s ", "what is the ", "what is ", " the ", " "]

/-- Greedy (.+) capture followed by a literal suffix: the longest non-empty
newline-free prefix of t after which the suffix starts. -/
def greedy_capture_before (suffix : List Char) (t : List Char) : Option String :=
  (((List.range t.length).map (fun i => t.length - i)).find? (fun k =>
      (t.take k).all (fun c => c ≠ '\n') && suffix.isPrefixOf (t.drop k))).map
    (fun k => String.mk (t.take k))

/-- One position of the first policy pattern: an optional question prefix,
an optional the, then a greedy capture before the literal policy suffix. -/
def policy1_at (l : List Char) : Option String :=
  policy1_prefixes.findSome? (fun a =>
    if a.toList.isPrefixOf l then greedy_capture_before " policy".toList (l.drop a.length)
    else none)

/-- re.search of the first policy pattern. -/
def policy1_search : List Char → Option String
  | [] => none
  | c :: rest =>
    match policy1_at (c :: rest) with
    | some g => some g
    | none => policy1_search rest

/-- The policy_query pattern list, tried pattern by pattern. -/
def policy_query_match (ql : String) : Option String :=
  (((((policy1_search ql.toList).orElse (fun _ =>
      search_capture ["how do i ", "how can i "] ql.toList)).orElse (fun _ =>
      search_capture ["tell me about "] ql.toList)).orElse (fun _ =>
      search_capture ["information about "] ql.toList)).orElse (fun _ =>
      search_capture ["explain ", "describe "] ql.toList)).map pyStrip

/-- Keyword alternatives of the standalone price-constraint pattern. -/
def price_kw : List String := ["under", "below", "less than", "within"]

/-- The optional currency group (?:rs |â‚¹)? of the price patterns: both
alternatives are three characters, the second being the mojibake rupee
sequence (a real ₹ in a query is not recognized by the source). -/
def drop_currency_alt (l : List Char) : List Char :=
  if "rs ".toList.isPrefixOf l then l.drop 3
  else if mojibake_rupee.isPrefixOf l then l.drop 3
  else l

/-- Greedy maximal digit run read as a number: the (\d+) group. -/
def digit_run_nat (l : List Char) : Nat :=
  nat_of_digits (l.takeWhile Char.isDigit)

/-- Everything after the lazy capture of the price-constraint pattern:
\s+ then a keyword then \s+ then the optional currency group then (\d+). -/
def match_after_capture (l : List Char) : Option Nat :=
  if l.head?.any py_white then
    let l1 := l.dropWhile py_white
    match price_kw.find? (fun kw => kw.toList.isPrefixOf l1) with
    | some kw =>
      let l2 := l1.drop kw.length
      if l2.head?.any py_white then
        let l3 := l2.dropWhile py_white
        let l4 := drop_currency_alt l3
        if l4.head?.any Char.isDigit then some (digit_run_nat l4) else none
      else none
    | none => none
  else none

/-- Lazy (.+?) loop at one position: grow the captured group one character
at a time until the remainder of the pattern matches. -/
def match_price_lazy : List Char → List Char → Option (String × Nat)
  | _, [] => none
  | acc, c :: rest =>
    if c = '\n' then none
    else
      match match_after_capture rest with
      | some n => some (String.mk ((c :: acc).reverse), n)
      | none => match_price_lazy (c :: acc) rest

/-- re.search of the hardcoded pattern
(.+?)\s+(?:under|below|less than|within)\s+(?:rs |â‚¹)?(\d+). -/
def price_constrained_search : List Char → Option (String × Nat)
  | [] => none
  | c :: rest =>
    match match_price_lazy [] (c :: rest) with
    | some g => some g
    | none => price_constrained_search rest

/-- Suffix of the search_product pattern (.+) (?:under|below|less than) (?:rs |â‚¹)?(\d+)
after the greedy capture. -/
def pat7_suffix_ok (t : List Char) : Bool :=
  match t with
  | ' ' :: r =>
    (match (["under", "below", "less than"].find? (fun kw => kw.toList.isPrefixOf r)) with
     | some kw =>
       (match r.drop kw.length with
        | ' ' :: r2 =>
          (drop_currency_alt r2).head?.any Char.isDigit
        | _ => false)
     | none => false)
  | _ => false

/-- One position of that pattern: the greedy (.+) group before its suffix. -/
def pat7_at (t : List Char) : Option String :=
  (((List.range t.length).map (fun i => t.length - i)).find? (fun k =>
      (t.take k).all (fun c => c ≠ '\n') && pat7_suffix_ok (t.drop k))).map
    (fun k => String.mk (t.take k))

/-- re.search of that pattern (only group 1 is used by the search loop). -/
def pat7_search : List Char → Option String
  | [] => none
  | c :: rest =>
    match pat7_at (c :: rest) with
    | some g => some g
    | none => pat7_search rest

/-- The search_product pattern list, tried pattern by pattern. -/
def search_product_match (ql : String) : Option String :=
  (((((((((((search_capture ["show me ", "show "] ql.toList).orElse (fun _ =>
      search_capture ["find me ", "find "] ql.toList)).orElse (fun _ =>
      search_capture ["search for ", "search "] ql.toList)).orElse (fun _ =>
      search_capture ["looking for "] ql.toList)).orElse (fun _ =>
      search_capture ["i want "] ql.toList)).orElse (fun _ =>
      search_capture ["need "] ql.toList)).orElse (fun _ =>
      pat7_search ql.toList)).orElse (fun _ =>
      search_capture ["best "] ql.toList)).orElse (fun _ =>
      search_capture ["top "] ql.toList)).orElse (fun _ =>
      search_capture ["cheapest ", "cheap "] ql.toList)).orElse (fun _ =>
      search_capture ["good "] ql.toList)).map pyStrip

/-- Embedding of AIAssistant.detect_intent: the rule groups are evaluated
against the trimmed lowercased query in the fixed order greeting, thanks,
price_query, policy_query, price-constrained search, general search,
default, returning at the first match. -/
def detect_intent (query : String) : IntentResult :=
  let ql := pyStrip query.toLower
  if greeting_hit ql then { intent := Intent.greeting, query := query, entities := {} }
  else if thanks_hit ql then { intent := Intent.thanks, query := query, entities := {} }
  else
    match price_query_match ql with
    | some g => { intent := Intent.price_query, query := g, entities := { product := some g } }
    | none =>
      match policy_query_match ql with
      | some g => { intent := Intent.policy_query, query := g, entities := { topic := some g } }
      | none =>
        match price_constrained_search ql.toList with
        | some (g, n) =>
          { intent := Intent.search_product, query := pyStrip g,
            entities := { product := some (pyStrip g), max_price := some n } }
        | none =>
          match search_product_match ql with
          | some g =>
            { intent := Intent.search_product, query := g, entities := { product := some g } }
          | none =>
            { intent := Intent.search_product, query := query,
              entities := { product := some query } }

/-- The intent rules as an ordered table (original query, lowered query) →
optional result, in the priority order stated by the specification. -/
def intent_rules : List (String → String → Option IntentResult) :=
  [fun query ql =>
      if greeting_hit ql then some { intent := Intent.greeting, query := query, entities := {} }
      else none,
   fun query ql =>
      if thanks_hit ql then some { intent := Intent.thanks, query := query, entities := {} }
      else none,
   fun _ ql =>
      (price_query_match ql).map (fun g =>
        { intent := Intent.price_query, query := g, entities := { product := some g } }),
   fun _ ql =>
      (policy_query_match ql).map (fun g =>
        { intent := Intent.policy_query, query := g, entities := { topic := some g } }),
   fun _ ql =>
      (price_constrained_search ql.toList).map (fun p =>
        { intent := Intent.search_product, query := pyStrip p.1,
          entities := { product := some (pyStrip p.1), max_price := some p.2 } }),
   fun _ ql =>
      (search_product_match ql).map (fun g =>
        { intent := Intent.search_product, query := g, entities := { product := some g } })]

/-- Specification-side classifier: first satisfied rule of the ordered table
wins, defaulting to a search for the full original query. -/
def detect_intent_ordered (query : String) : IntentResult :=
  let ql := pyStrip query.toLower
  (intent_rules.findSome? (fun r => r query ql)).getD
    { intent := Intent.search_product, query := query, entities := { product := some query } }

/-- Category keyword table of AIAssistant.enhance_query (dict insertion order). -/
def category_keywords : List (String × String) :=
  [("phone", "smartphone mobile"),
   ("laptop", "laptop notebook computer"),
   ("shoe", "shoes footwear"),
   ("dress", "dress kurti clothing"),
   ("watch", "watch smartwatch"),
   ("headphone", "headphones earphones audio"),
   ("tablet", "tablet ipad")]

/-- Embedding of AIAssistant.enhance_query: for a product search, append the
synonym keywords of the first category key contained in the query. -/
def enhance_query (intent_data : IntentResult) : String :=
  if intent_data.intent = Intent.search_product then
    let query := intent_data.query
    let ql := query.toLower
    match category_keywords.find? (fun p => substr p.1 ql) with
    | some p => query ++ " " ++ p.2
    | none => query
  else intent_data.query

/-- The canned greeting reply of generate_conversational_response. -/
def greeting_message : String :=
  "👋 Hello! Welcome to Snapdeal Shopping Assistant!\n\n" ++
  "I can help you:\n" ++
  "• Find products (smartphones, laptops, fashion, etc.)\n" ++
  "• Compare prices and deals\n" ++
  "• Answer questions about delivery, returns, and payments\n\n" ++
  "What are you looking for today?"

/-- The canned thanks reply. -/
def thanks_message : String :=
  "😊 You\u0027re welcome! Happy to help!\n\n" ++
  "Feel free to ask if you need anything else.\n" ++
  "Have a great shopping experience! 🛍️"

/-- Embedding of AIAssistant.generate_conversational_response. -/
def generate_conversational_response (intent_data : IntentResult) (rag_response : String) :
    String :=
  match intent_data.intent with
  | Intent.greeting => greeting_message
  | Intent.thanks => thanks_message
  | Intent.price_query => "💰 Price Information:\n\n" ++ rag_response
  | Intent.policy_query => "📋 Policy Information:\n\n" ++ rag_response
  | Intent.search_product =>
    let header := "🛍️ Here are the products I found"
    let header :=
      match intent_data.entities.max_price with
      | some p => header ++ " under " ++ String.mk mojibake_rupee ++ toString p
      | none => header
    header ++ ":\n\n" ++ rag_response
  | _ => rag_response

/-- The canned no-results suggestion message of generate_response. -/
def no_results_message : String :=
  "No specific products found. Try different keywords or ask about:\n" ++
  "• \u0027smartphones under 15000\u0027\n" ++
  "• \u0027best laptops for students\u0027\n" ++
  "• \u0027delivery policy\u0027\n"

/-- One numbered entry of the response list: skipped when the text is empty
or the score is at most 0.01, otherwise the numbered text line, the product
url line when it starts with http, and a blank line. -/
def doc_lines (i : Nat) (doc : Match) : List String :=
  let text := doc.metadata.text
  if text = "" || decide (doc.score ≤ 1 / 100) then []
  else
    [toString i ++ ". " ++ text] ++
      (if doc.metadata.product_url ≠ "" && "http".toList.isPrefixOf doc.metadata.product_url.toList
       then ["   🔗 " ++ doc.metadata.product_url] else []) ++
      [""]

/-- Embedding of SnapdealRAGChatbot.generate_response. -/
def generate_response (query : String) (retrieved_docs : List Match) : String :=
  if retrieved_docs.isEmpty then no_results_message
  else if !(retrieved_docs.any (fun doc => decide (1 / 100 < doc.score))) then no_results_message
  else
    let response := ((retrieved_docs.take 5).enum.map (fun p => doc_lines (p.1 + 1) p.2)).flatten
    if response.isEmpty then no_results_message
    else String.intercalate "\n" response

/-- Embedding of SnapdealRAGChatbot.chat. The second component is the log of
vector-index queries issued while answering (empty for greeting/thanks,
which return before any retrieval). -/
def chat (cb : Chatbot) (user_query : String) : String × List (List ℚ × Nat) :=
  let intent_data := detect_intent user_query
  if intent_data.intent = Intent.greeting || intent_data.intent = Intent.thanks then
    (generate_conversational_response intent_data "", [])
  else
    let enhanced_query := enhance_query intent_data
    let max_price := intent_data.entities.max_price
    let retrieved := retrieve_relevant_info cb enhanced_query 5 max_price
    let rag_response := generate_response enhanced_query retrieved.1
    (generate_conversational_response intent_data rag_response, retrieved.2)

/-- Example knowledge-base record, priced with the mojibake rupee spelling
of the fallback product records (the only spelling the source can parse). -/
def exDoc : Doc :=
  { id := "d1",
    text := "samsung galaxy m14 5g - price: â‚¹12,990",
    category := "smartphones",
    product_name := some "Samsung Galaxy M14 5G",
    price := "â‚¹12,990" }

/-- Example record whose price field holds no numeral. -/
def exDocNoPrice : Doc :=
  { id := "d4", text := "HP Laptop 15s - Price coming soon", category := "laptops",
    product_name := some "HP Laptop 15s", price := "coming soon" }

/-- Example vector match with an unparseable price. -/
def exMatchNoPrice : Match := { id := "v0", score := 9 / 10, metadata := exDocNoPrice }

/-- Example vector match over the sample record. -/
def exMatchPricey : Match := { id := "v1", score := 9 / 10, metadata := exDoc }

/-- Example low-confidence vector match. -/
def exMatchLow : Match := { id := "v2", score := 1 / 10, metadata := exDoc }

/-- Example cheap vector match: its mojibake-spelled price parses to 499,
within every budget used here. -/
def exMatchCheap : Match :=
  { id := "v3", score := 9 / 10,
    metadata := { id := "d9", text := "basic earphones - price: â‚¹499",
                  category := "headphones", price := "â‚¹499" } }

/-- Chatbot whose vectorizer embeds everything to the zero vector. -/
def exCbZero : Chatbot :=
  { knowledge_base := [exDoc], embed := fun _ => [0], index := fun _ _ => Except.ok [exMatchCheap] }

/-- Chatbot whose index query always fails. -/
def exCbErr : Chatbot :=
  { knowledge_base := [exDoc], embed := fun _ => [1], index := fun _ _ => Except.error () }

/-- Tiny record with empty category (the empty category string is contained
in every query word, so the category boost always fires for it). -/
def exTinyDoc : Doc := { id := "k", text := "tv" }

/-- Chatbot whose index returns one low-confidence match. -/
def exCbLow : Chatbot :=
  { knowledge_base := [exTinyDoc], embed := fun _ => [1],
    index := fun _ _ => Except.ok [exMatchLow] }

/-- Chatbot whose index returns one cheap and one unparseable-price match. -/
def exCbPrice : Chatbot :=
  { knowledge_base := [exDoc], embed := fun _ => [1],
    index := fun _ _ => Except.ok [exMatchCheap, exMatchNoPrice] }

/-- The top keyword hit of exCbLow for the query tv: lexical overlap 1 plus
category boost 3, scored over one distinct query word. -/
def exKwTop : Match := { id := "k", score := 4, metadata := exTinyDoc }

/-- Claim C1: when the query embedding is all-zero (sum of absolute entries
below 1e-10), retrieve_relevant_info returns exactly the keyword-search
result for the same arguments and never queries the vector index store. -/
theorem zero_embedding_falls_back_to_keyword (cb : Chatbot) (query : String) (top_k : Nat)
    (max_price : Option Nat) (h : isZeroVec (cb.embed query) = true) :
    retrieve_relevant_info cb query top_k max_price =
      (_keyword_search cb.knowledge_base query top_k max_price, []) := by
  unfold retrieve_relevant_info
  simp [h]

/-- Witness for C1 at a concrete chatbot whose embedder returns [0]. -/
theorem zero_embedding_falls_back_to_keyword_witness :
    isZeroVec (exCbZero.embed "phone") = true ∧
    retrieve_relevant_info exCbZero "phone" 5 none =
      (_keyword_search exCbZero.knowledge_base "phone" 5 none, []) :=
  ⟨by with_unfolding_all decide,
   zero_embedding_falls_back_to_keyword exCbZero "phone" 5 none (by with_unfolding_all decide)⟩

/-- Claim C7: any vector-index query error is caught and the keyword-search
results for the same query, top_k and max_price are returned; the failure is
never propagated (the embedded retrieval is a total function). -/
theorem index_error_falls_back_to_keyword (cb : Chatbot) (query : String) (top_k : Nat)
    (max_price : Option Nat)
    (hz : isZeroVec (cb.embed query) = false)
    (herr : cb.index (cb.embed query) (effective_top_k max_price top_k) = Except.error ()) :
    (retrieve_relevant_info cb query top_k max_price).1 =
      _keyword_search cb.knowledge_base query top_k max_price := by
  unfold retrieve_relevant_info
  simp [hz, herr]

/-- Witness for C7 at a concrete chatbot whose index always fails. -/
theorem index_error_falls_back_to_keyword_witness :
    (retrieve_relevant_info exCbErr "samsung" 5 none).1 =
      _keyword_search exCbErr.knowledge_base "samsung" 5 none :=
  index_error_falls_back_to_keyword exCbErr "samsung" 5 none (by with_unfolding_all decide) rfl

/-- Claim C8: an empty retrieved list, or one with no score above 0.01,
makes generate_response return the fixed non-empty no-results message. -/
theorem low_scores_yield_no_results_message (query : String) (docs : List Match)
    (h : docs = [] ∨ ∀ d ∈ docs, ¬ ((1 : ℚ) / 100 < d.score)) :
    generate_response query docs = no_results_message ∧ no_results_message ≠ "" := by
  refine ⟨?_, by decide⟩
  unfold generate_response
  rcases h with h | h
  · subst h; rfl
  · by_cases he : docs.isEmpty = true
    · rw [if_pos he]
    · have hany : (docs.any (fun doc => decide ((1 : ℚ) / 100 < doc.score))) = false := by
        rw [List.any_eq_false]
        intro d hd
        simpa using h d hd
      rw [if_neg he, if_pos]
      rw [hany]
      rfl

/-- Witness for C8 at the empty retrieved list. -/
theorem low_scores_yield_no_results_message_witness :
    generate_response "x" [] = no_results_message ∧ no_results_message ≠ "" :=
  low_scores_yield_no_results_message "x" [] (Or.inl rfl)

/-- Claim C10: max_price = 0 is falsy, so both search functions behave
exactly as with no max_price: no record excluded and no 3x top_k expansion. -/
theorem max_price_zero_disables_filtering (cb : Chatbot) (query : String) (top_k : Nat) :
    _keyword_search cb.knowledge_base query top_k (some 0) =
      _keyword_search cb.knowledge_base query top_k none ∧
    retrieve_relevant_info cb query top_k (some 0) =
      retrieve_relevant_info cb query top_k none :=
  ⟨rfl, rfl⟩

/-- Claim C3: with a positive max_price, a knowledge-base record whose price
parses to nothing passes the lenient keyword filter, while a vector match
whose price parses to nothing is dropped by the strict filter; a parsed
price above max_price is excluded by both filters. -/
theorem price_parse_failure_asymmetry (mp p : Nat) (d d2 : Doc) (m m2 : Match)
    (hmp : 0 < mp)
    (hd : parse_price d.price = none)
    (hm : parse_price m.metadata.price = none)
    (hd2 : parse_price d2.price = some p)
    (hm2 : parse_price m2.metadata.price = some p)
    (hp : mp < p) :
    keyword_price_pass d.price mp = true ∧
    filter_by_price_strict [m] mp = [] ∧
    keyword_price_pass d2.price mp = false ∧
    filter_by_price_strict [m2] mp = [] := by
  refine ⟨?_, ?_, ?_, ?_⟩
  · unfold keyword_price_pass
    rw [hd]
  · unfold filter_by_price_strict vector_price_pass
    simp [hm]
  · unfold keyword_price_pass
    rw [hd2]
    simpa using hp
  · unfold filter_by_price_strict vector_price_pass
    simp [hm2]
    omega

/-- Witness for C3: budget 12000 against an unparseable price and ₹12,990. -/
theorem price_parse_failure_asymmetry_witness :
    keyword_price_pass exDocNoPrice.price 12000 = true ∧
    filter_by_price_strict [exMatchNoPrice] 12000 = [] ∧
    keyword_price_pass exDoc.price 12000 = false ∧
    filter_by_price_strict [exMatchPricey] 12000 = [] :=
  price_parse_failure_asymmetry 12000 12990 exDocNoPrice exDoc exMatchNoPrice exMatchPricey
    (by decide) (by decide) (by decide) (by decide) (by decide) (by decide)

/-- Claim C5: when the vector matches are non-empty, no price-filtered set is
returned, the top vector score is below 0.3, and the keyword results are
non-empty with positive top score, retrieve_relevant_info returns the
keyword results. -/
theorem low_confidence_prefers_keyword (cb : Chatbot) (query : String) (top_k : Nat)
    (max_price : Option Nat) (ms : List Match) (m0 k0 : Match)
    (hz : isZeroVec (cb.embed query) = false)
    (hq : cb.index (cb.embed query) (effective_top_k max_price top_k) = Except.ok ms)
    (hne : ms.isEmpty = false)
    (hfilt : truthy max_price = true → (filter_by_price_strict ms (max_price.getD 0)).isEmpty = true)
    (hm0 : ms.head? = some m0)
    (hsc : m0.score < 3 / 10)
    (hk0 : (_keyword_search cb.knowledge_base query top_k max_price).head? = some k0)
    (hpos : 0 < k0.score) :
    (retrieve_relevant_info cb query top_k max_price).1 =
      _keyword_search cb.knowledge_base query top_k max_price := by
  have hsel : low_confidence_select ms (_keyword_search cb.knowledge_base query top_k max_price)
      top_k = _keyword_search cb.knowledge_base query top_k max_price := by
    unfold low_confidence_select
    rw [hm0, hk0]
    dsimp only
    rw [if_pos hsc]
    simp [hpos]
  unfold retrieve_relevant_info
  simp only [hz, Bool.false_eq_true, if_false, hq, hne]
  by_cases ht : truthy max_price = true
  · simp only [ht, if_true, hfilt ht, Bool.true_eq_false, if_false]
    simpa using hsel
  · simp only [Bool.not_eq_true] at ht
    simp only [ht, Bool.false_eq_true, if_false]
    simpa using hsel

set_option maxRecDepth 4000 in
/-- Witness for C5: a 0.1-score vector match against a keyword hit of score 4. -/
theorem low_confidence_prefers_keyword_witness :
    (retrieve_relevant_info exCbLow "tv" 5 none).1 =
      _keyword_search exCbLow.knowledge_base "tv" 5 none :=
  low_confidence_prefers_keyword exCbLow "tv" 5 none [exMatchLow] exMatchLow exKwTop
    (by with_unfolding_all decide) rfl rfl (fun h => Bool.noConfusion h) rfl
    (by with_unfolding_all decide) (by with_unfolding_all decide) (by with_unfolding_all decide)

/-- Claim C6: an active max_price makes retrieve_relevant_info request
3 x top_k vector matches; when some match survives the strict price filter
the first top_k survivors are returned, and when none survives the call
falls through to the low-confidence comparison over the unfiltered matches. -/
theorem active_price_filter_pipeline (cb : Chatbot) (query : String) (top_k p : Nat)
    (ms : List Match)
    (hp : 0 < p)
    (hz : isZeroVec (cb.embed query) = false)
    (hq : cb.index (cb.embed query) (top_k * 3) = Except.ok ms)
    (hne : ms.isEmpty = false) :
    (retrieve_relevant_info cb query top_k (some p)).2 = [(cb.embed query, top_k * 3)] ∧
    ((filter_by_price_strict ms p).isEmpty = false →
      (retrieve_relevant_info cb query top_k (some p)).1 =
        (filter_by_price_strict ms p).take top_k) ∧
    ((filter_by_price_strict ms p).isEmpty = true →
      (retrieve_relevant_info cb query top_k (some p)).1 =
        low_confidence_select ms (_keyword_search cb.knowledge_base query top_k (some p))
          top_k) := by
  have ht : truthy (some p) = true := by
    unfold truthy
    simpa using Nat.pos_iff_ne_zero.mp hp
  have hk : effective_top_k (some p) top_k = top_k * 3 := by
    simp [effective_top_k, ht]
  refine ⟨?_, ?_, ?_⟩
  · unfold retrieve_relevant_info
    simp only [hz, Bool.false_eq_true, if_false, hk, hq, hne, ht, if_true, Option.getD_some]
    by_cases hf : (filter_by_price_strict ms p).isEmpty <;> simp [hf]
  · intro hf
    unfold retrieve_relevant_info
    simp only [hz, Bool.false_eq_true, if_false, hk, hq, hne, ht, if_true, Option.getD_some]
    simp [hf]
  · intro hf
    unfold retrieve_relevant_info
    simp only [hz, Bool.false_eq_true, if_false, hk, hq, hne, ht, if_true, Option.getD_some]
    simp [hf]

/-- Witness for C6: budget 1000 over one cheap and one unparseable match. -/
theorem active_price_filter_pipeline_witness :
    (retrieve_relevant_info exCbPrice "samsung" 2 (some 1000)).2 =
      [(exCbPrice.embed "samsung", 2 * 3)] ∧
    ((filter_by_price_strict [exMatchCheap, exMatchNoPrice] 1000).isEmpty = false →
      (retrieve_relevant_info exCbPrice "samsung" 2 (some 1000)).1 =
        (filter_by_price_strict [exMatchCheap, exMatchNoPrice] 1000).take 2) ∧
    ((filter_by_price_strict [exMatchCheap, exMatchNoPrice] 1000).isEmpty = true →
      (retrieve_relevant_info exCbPrice "samsung" 2 (some 1000)).1 =
        low_confidence_select [exMatchCheap, exMatchNoPrice]
          (_keyword_search exCbPrice.knowledge_base "samsung" 2 (some 1000)) 2) :=
  active_price_filter_pipeline exCbPrice "samsung" 2 1000 [exMatchCheap, exMatchNoPrice]
    (by decide) (by with_unfolding_all decide) rfl rfl

/-- Claim C9: the greeting patterns are matched by an unanchored search, so
any query whose trimmed lowercase form contains hi, hello, hey or greetings
as a substring is classified as a greeting, and chat then returns the canned
greeting message with no vector-index query (and no retrieval at all). -/
theorem greeting_substring_short_circuits (query : String) (cb : Chatbot)
    (h : greeting_pat1 (pyStrip query.toLower) = true) :
    detect_intent query = { intent := Intent.greeting, query := query, entities := {} } ∧
    chat cb query = (greeting_message, []) := by
  have hg : greeting_hit (pyStrip query.toLower) = true := by
    unfold greeting_hit
    rw [h]
    rfl
  have hd : detect_intent query =
      { intent := Intent.greeting, query := query, entities := {} } := by
    unfold detect_intent
    simp [hg]
  refine ⟨hd, ?_⟩
  unfold chat
  simp [hd, generate_conversational_response]

set_option maxRecDepth 4000 in
/-- Witness for C9: the query white shirt contains hi inside white. -/
theorem greeting_substring_short_circuits_witness :
    detect_intent "white shirt" =
      { intent := Intent.greeting, query := "white shirt", entities := {} } ∧
    chat exCbZero "white shirt" = (greeting_message, []) :=
  greeting_substring_short_circuits "white shirt" exCbZero (by with_unfolding_all decide)

set_option maxRecDepth 4000 in
/-- Claim C2: detect_intent is the first-match-wins evaluation of the rule
table in the order greeting, thanks, price_query, policy_query,
price-constrained search, general search, default, and the query
thanks for the help is classified as thanks, not search_product. -/
theorem detect_intent_priority :
    (∀ query : String, detect_intent query = detect_intent_ordered query) ∧
    detect_intent "thanks for the help" =
      { intent := Intent.thanks, query := "thanks for the help", entities := {} } := by
  constructor
  · intro q
    unfold detect_intent detect_intent_ordered intent_rules
    simp only [List.findSome?_cons, List.findSome?_nil]
    by_cases hg : greeting_hit (pyStrip q.toLower) = true
    · simp [hg]
    · rw [Bool.not_eq_true] at hg
      by_cases ht : thanks_hit (pyStrip q.toLower) = true
      · simp [hg, ht]
      · rw [Bool.not_eq_true] at ht
        cases hp : price_query_match (pyStrip q.toLower) with
        | some g => simp [hg, ht, hp]
        | none =>
          cases hpo : policy_query_match (pyStrip q.toLower) with
          | some g => simp [hg, ht, hp, hpo]
          | none =>
            cases hpc : price_constrained_search (pyStrip q.toLower).toList with
            | some g => simp [hg, ht, hp, hpo, hpc]
            | none =>
              cases hs : search_product_match (pyStrip q.toLower) with
              | some g => simp [hg, ht, hp, hpo, hpc, hs]
              | none => simp [hg, ht, hp, hpo, hpc, hs]
  · with_unfolding_all decide

/-- The scored candidate list of `_keyword_search` as the specification
states it: knowledge-base records in insertion order that pass the lenient
price test and have non-zero total overlap, each scored
overlap / max(1, number of distinct query words). -/
def c4_candidates (knowledge_base : List Doc) (query : String) (max_price : Option Nat) :
    List Match :=
  let query_words := (pySplit query.toLower).dedup
  (knowledge_base.filter (fun doc =>
      !(truthy max_price && !(keyword_price_pass doc.price (max_price.getD 0))) &&
        decide (0 < keyword_overlap query_words doc))).map
    (fun doc =>
      { id := doc.id,
        score := (keyword_overlap query_words doc : ℚ) / (max query_words.length 1 : ℚ),
        metadata := doc })

/-- A filterMap guarded by a skip condition and a keep condition is the map
of the kept elements in order. -/
theorem filterMap_guard_eq_map_filter {α β : Type} (f : α → β) (c1 c2 : α → Bool)
    (l : List α) :
    l.filterMap (fun x => if c1 x then none else if c2 x then some (f x) else none) =
      (l.filter (fun x => !(c1 x) && c2 x)).map f := by
  induction l with
  | nil => rfl
  | cons a rest ih =>
    cases h1 : c1 a <;> cases h2 : c2 a <;>
      simp [List.filterMap_cons, List.filter_cons, h1, h2, ih]

/-- The guarded filterMap of `_keyword_search` builds exactly the
filter-then-map candidate list. -/
theorem keyword_scores_eq_candidates (knowledge_base : List Doc) (query_words : List String)
    (max_price : Option Nat) :
    knowledge_base.filterMap (fun doc =>
      if truthy max_price && !(keyword_price_pass doc.price (max_price.getD 0)) then none
      else
        let overlap := keyword_overlap query_words doc
        if 0 < overlap then
          some ({ id := doc.id, score := (overlap : ℚ) / (max query_words.length 1 : ℚ),
                  metadata := doc } : Match)
        else none) =
    (knowledge_base.filter (fun doc =>
        !(truthy max_price && !(keyword_price_pass doc.price (max_price.getD 0))) &&
          decide (0 < keyword_overlap query_words doc))).map
      (fun doc =>
        ({ id := doc.id,
           score := (keyword_overlap query_words doc : ℚ) / (max query_words.length 1 : ℚ),
           metadata := doc } : Match)) := by
  have h := filterMap_guard_eq_map_filter
    (fun doc : Doc =>
      ({ id := doc.id,
         score := (keyword_overlap query_words doc : ℚ) / (max query_words.length 1 : ℚ),
         metadata := doc } : Match))
    (fun doc => truthy max_price && !(keyword_price_pass doc.price (max_price.getD 0)))
    (fun doc => decide (0 < keyword_overlap query_words doc))
    knowledge_base
  simpa only [decide_eq_true_eq] using h

/-- The stable sort leaves every class of equally scored matches in its
original relative order. -/
theorem filter_sort_desc_stable (p : Match → Bool)
    (hp : ∀ a b, p a = true → p b = true → score_ge a b) (l : List Match) :
    (sort_desc_stable l).filter p = l.filter p := by
  have hperm : List.Perm ((sort_desc_stable l).filter p) (l.filter p) :=
    (List.perm_insertionSort score_ge l).filter p
  have hpw : (l.filter p).Pairwise score_ge := by
    apply List.pairwise_of_forall_mem_list
    intro a ha b hb
    exact hp a b (List.of_mem_filter ha) (List.of_mem_filter hb)
  have hsub : List.Sublist (l.filter p) (sort_desc_stable l) :=
    List.sublist_insertionSort hpw (List.filter_sublist l)
  have hself : (l.filter p).filter p = l.filter p :=
    List.filter_eq_self.mpr (fun a ha => List.of_mem_filter ha)
  have hsub2 : List.Sublist (l.filter p) ((sort_desc_stable l).filter p) := by
    have h2 := hsub.filter p
    rwa [hself] at h2
  exact (hsub2.eq_of_length hperm.length_eq.symm).symm

/-- Claim C4: _keyword_search is the first top_k of the stable descending
sort of the candidate list; the sorted list is a permutation of the
candidates, is descending in score, and keeps each class of equal scores in
knowledge-base insertion order. -/
theorem keyword_search_ranking (knowledge_base : List Doc) (query : String) (top_k : Nat)
    (max_price : Option Nat) :
    _keyword_search knowledge_base query top_k max_price =
      (sort_desc_stable (c4_candidates knowledge_base query max_price)).take top_k ∧
    (sort_desc_stable (c4_candidates knowledge_base query max_price)).Perm
      (c4_candidates knowledge_base query max_price) ∧
    (sort_desc_stable (c4_candidates knowledge_base query max_price)).Pairwise score_ge ∧
    (∀ s : ℚ,
      (sort_desc_stable (c4_candidates knowledge_base query max_price)).filter
          (fun m => m.score == s) =
        (c4_candidates knowledge_base query max_price).filter (fun m => m.score == s)) := by
  refine ⟨?_, List.perm_insertionSort score_ge _, List.sorted_insertionSort score_ge _, ?_⟩
  · simp only [_keyword_search, c4_candidates]
    rw [keyword_scores_eq_candidates]
  · intro s
    apply filter_sort_desc_stable
    intro a b ha hb
    unfold score_ge
    rw [eq_of_beq ha, eq_of_beq hb]
